import Mathlib

/-!
Verification of the isolation/reconciliation core of the papagai repository
(src/papagai/worktree.py and src/papagai/cli.py).

The python code is an orchestration of external `git` / `fuse-overlayfs`
process invocations (via `run_command` in src/papagai/cmd.py).  The shallow
embedding models one invocation of each orchestrating function as a pure
function over an *environment* that fixes the outcome of every external
command the function runs, and returns a record describing the externally
observable effects (commits created, refs moved, directories removed,
log messages, early returns, exceptions).

External commands have three possible outcomes, mirroring Python's
`subprocess.run`:
  * the process runs and exits 0,
  * the process runs and exits non-zero (raises `CalledProcessError`
    when `check=True`),
  * the process cannot be spawned at all (missing binary / working
    directory): `subprocess.run` raises `OSError`, which is *not* a
    `subprocess.SubprocessError` and therefore passes through handlers
    that only catch `CalledProcessError` / `SubprocessError`.
-/

/-- Outcome of one external command invocation: exit 0, non-zero exit,
or an `OSError` while spawning the process. -/
inductive CmdRes where
  | ok
  | fail
  | oserr
  deriving DecidableEq, Repr

/-- The two kinds of exception the embedded code can raise:
`calledProcess` models `subprocess.CalledProcessError` (a
`SubprocessError`), `osError` models `OSError` (not a `SubprocessError`,
but still an `Exception`). -/
inductive GitError where
  | calledProcess
  | osError
  deriving DecidableEq, Repr

/-- What kind of uncommitted material sits in the workspace tree at
teardown time. -/
structure TreeStatus where
  /-- there are modifications to tracked files that are not staged -/
  unstagedTracked : Bool
  /-- there are changes already staged in the index -/
  staged : Bool
  /-- there are untracked new files -/
  untracked : Bool
  deriving DecidableEq, Repr

/-- Semantics of `git diff --quiet --exit-code` run with no further
arguments (worktree.py lines 111-118 and 293-300): it compares the
working tree against the index, so it exits non-zero exactly when there
are unstaged modifications to tracked files; staged-only changes and
untracked files leave it at exit 0. -/
def gitDiffDirty (t : TreeStatus) : Bool := t.unstagedTracked

/-- The fixed synthetic safety-net commit message (worktree.py line 129/311). -/
def fixmeMsg : String := "FIXME: changes left in worktree"

/-- `x` is `Except.ok`: the modelled call returned normally instead of
propagating an exception. -/
def returnsNormally {α β : Type} (x : Except α β) : Bool :=
  match x with
  | .ok _ => true
  | .error _ => false

/-! ## Plain worktree strategy: `Worktree._cleanup` (worktree.py 108-164) -/

/-- Environment of one plain-strategy teardown: the state of the tree and
the outcome of each external command `Worktree._cleanup` may run. -/
structure PlainEnv where
  status : TreeStatus
  /-- the `keep` construction flag (see `Worktree.cleanupRest`) -/
  keep : Bool
  /-- current tip commit of the workspace branch -/
  tip : Nat
  /-- current target of the `papagai/latest` pointer (`none`: absent) -/
  latest0 : Option Nat
  /-- the `git diff` invocation itself raises `OSError` -/
  diffRaises : Bool
  /-- outcome of `git add -A` -/
  addRes : CmdRes
  /-- outcome of `git commit -m fixmeMsg` -/
  commitRes : CmdRes
  /-- outcome of `git branch -f papagai/latest <branch>` -/
  repointRes : CmdRes
  /-- outcome of `git worktree remove --force <branch>` -/
  wtRemoveRes : CmdRes
  /-- the fallback `shutil.rmtree(..., ignore_errors=True)` actually
  manages to delete the directory -/
  rmtreeOk : Bool

/-- Observable effects of one plain-strategy teardown. -/
structure POut where
  /-- result of the dirty check (`git diff` exited non-zero) -/
  dirty : Bool := false
  /-- `git add -A` was run and succeeded (everything staged) -/
  addedAll : Bool := false
  /-- messages of the synthetic commits created, in order -/
  syntheticMsgs : List String := []
  /-- manual-recovery commands were logged -/
  recoveryLogged : Bool := false
  /-- `repoint_latest_branch` was invoked -/
  repointCalled : Bool := false
  /-- final target of `papagai/latest` -/
  latest : Option Nat := none
  /-- final tip commit of the workspace branch -/
  tip : Nat := 0
  /-- the informational "Keeping worktree ..." message was logged -/
  keepLogged : Bool := false
  /-- `git worktree remove --force` was invoked -/
  wtRemoveCalled : Bool := false
  /-- the workspace directory is gone afterwards -/
  dirRemoved : Bool := false
  /-- the empty-ancestor-pruning walk ran -/
  parentsWalked : Bool := false
  /-- `_cleanup` returned early (an inner `return`) -/
  earlyReturn : Bool := false
  /-- the top-level `except Exception` handler fired -/
  caught : Bool := false
  deriving Repr

/-- Tail of `Worktree._cleanup` after the commit safety net
(worktree.py 139-162): update the latest pointer, then physical cleanup.
`repoint_latest_branch` (worktree.py 24-42) catches `CalledProcessError`
itself and only logs; an `OSError` propagates.  `git worktree remove`
runs with `check=False`; `shutil.rmtree` runs with `ignore_errors=True`.

The `keep` gate is *modelled from the spec* (§4.3 step 4: physical
cleanup is "skipped entirely (with an informational log) if `keep` is
true"): the `keep` attribute is required by the callers in
src/papagai/cli.py (`from_branch(..., keep=keep)`) and by
src/test/test_keep_option.py (skip `git worktree remove`/`rmtree`, log
"Keeping worktree ...", still run the diff check, safety-net commit and
`git branch -f papagai/latest`), but the copy of worktree.py under src/
predates the flag.  With `keep = false` this definition is exactly
worktree.py 139-162. -/
def Worktree.cleanupRest (e : PlainEnv) (dirty added : Bool) (msgs : List String)
    (tip : Nat) : Except (GitError × POut) POut :=
  match e.repointRes with
  | .oserr =>
      .error (.osError,
        { dirty := dirty, addedAll := added, syntheticMsgs := msgs,
          repointCalled := true, latest := e.latest0, tip := tip })
  | r =>
      let latest := if r = .ok then some tip else e.latest0
      if e.keep then
        .ok { dirty := dirty, addedAll := added, syntheticMsgs := msgs,
              repointCalled := true, latest := latest, tip := tip,
              keepLogged := true }
      else
        match e.wtRemoveRes with
        | .oserr =>
            .error (.osError,
              { dirty := dirty, addedAll := added, syntheticMsgs := msgs,
                repointCalled := true, latest := latest, tip := tip,
                wtRemoveCalled := true })
        | rr =>
            .ok { dirty := dirty, addedAll := added, syntheticMsgs := msgs,
                  repointCalled := true, latest := latest, tip := tip,
                  wtRemoveCalled := true,
                  dirRemoved := (rr = .ok) || e.rmtreeOk,
                  parentsWalked := true }

/-- Body of `Worktree._cleanup` (worktree.py 110-162), i.e. the code
inside the top-level `try`.  The dirty check runs `git diff --quiet
--exit-code` with `check=False`; if dirty, `git add -A` and `git commit`
run with `check=True` inside a `try` whose `except
subprocess.SubprocessError` logs manual-recovery commands and returns
early — an `OSError` is not a `SubprocessError` and escapes it.  A
successful commit advances the branch tip by one commit. -/
def Worktree.cleanupBody (e : PlainEnv) : Except (GitError × POut) POut :=
  if e.diffRaises then
    .error (.osError, { latest := e.latest0, tip := e.tip })
  else if gitDiffDirty e.status then
    match e.addRes with
    | .oserr =>
        .error (.osError, { dirty := true, latest := e.latest0, tip := e.tip })
    | .fail =>
        .ok { dirty := true, recoveryLogged := true, earlyReturn := true,
              latest := e.latest0, tip := e.tip }
    | .ok =>
        match e.commitRes with
        | .oserr =>
            .error (.osError,
              { dirty := true, addedAll := true, latest := e.latest0, tip := e.tip })
        | .fail =>
            .ok { dirty := true, addedAll := true, recoveryLogged := true,
                  earlyReturn := true, latest := e.latest0, tip := e.tip }
        | .ok =>
            Worktree.cleanupRest e true true [fixmeMsg] (e.tip + 1)
  else
    Worktree.cleanupRest e false false [] e.tip

/-- `Worktree._cleanup` (worktree.py 108-164): the body wrapped in
`try ... except Exception` — every exception value is caught, logged and
swallowed, so the result is always `Except.ok`. -/
def Worktree.cleanup (e : PlainEnv) : Except (GitError × POut) POut :=
  match Worktree.cleanupBody e with
  | .ok o => .ok o
  | .error (_, o) => .ok { o with caught := true }

/-- The effect record of a plain teardown (projection of `Worktree.cleanup`,
which never returns `.error`). -/
def Worktree.cleanupOut (e : PlainEnv) : POut :=
  match Worktree.cleanup e with
  | .ok o => o
  | .error (_, o) => o

/-! ## Overlay strategy: `WorktreeOverlayFs._cleanup` (worktree.py 290-371) -/

/-- Environment of one overlay-strategy teardown. -/
structure OvEnv where
  status : TreeStatus
  /-- the `keep` construction flag (see `WorktreeOverlayFs.cleanupRest`) -/
  keep : Bool
  /-- current tip commit of the workspace branch inside the mount -/
  tip : Nat
  /-- current target of the `papagai/latest` pointer (`none`: absent) -/
  latest0 : Option Nat
  /-- the `git diff` invocation itself raises `OSError` -/
  diffRaises : Bool
  /-- outcome of `git add -A` -/
  addRes : CmdRes
  /-- outcome of `git commit -m fixmeMsg` -/
  commitRes : CmdRes
  /-- outcome of `git fetch <mount_dir> <branch>:<branch>` in the primary repo -/
  fetchRes : CmdRes
  /-- outcome of `git rev-parse --verify <branch>` in the primary repo -/
  verifyRes : CmdRes
  /-- outcome of `git branch -f papagai/latest <branch>` -/
  repointRes : CmdRes
  /-- `self.mount_dir` is set and `mount_dir.exists()` -/
  mountDirExists : Bool
  /-- outcome of `fusermount -u <mount_dir>` -/
  unmountRes : CmdRes
  /-- `self.overlay_base_dir` is set and `overlay_base_dir.exists()` -/
  cacheDirExists : Bool

/-- Observable effects of one overlay-strategy teardown. -/
structure OOut where
  /-- result of the dirty check (`git diff` exited non-zero) -/
  dirty : Bool := false
  /-- `git add -A` was run and succeeded (everything staged) -/
  addedAll : Bool := false
  /-- messages of the synthetic commits created, in order -/
  syntheticMsgs : List String := []
  /-- manual-recovery commands were logged -/
  recoveryLogged : Bool := false
  /-- the publish step (`git fetch` from the mount) was attempted -/
  fetchTried : Bool := false
  /-- the branch was fetched into the primary repo and verified resolvable -/
  publishOk : Bool := false
  /-- `repoint_latest_branch` was invoked -/
  repointCalled : Bool := false
  /-- final target of `papagai/latest` -/
  latest : Option Nat := none
  /-- final tip commit of the workspace branch -/
  tip : Nat := 0
  /-- the informational "Keeping overlay mounted ..." message was logged -/
  keepLogged : Bool := false
  /-- `fusermount -u` was invoked -/
  unmountCalled : Bool := false
  /-- the unmount succeeded -/
  unmountedOk : Bool := false
  /-- `shutil.rmtree(overlay_base_dir, ...)` was invoked -/
  cacheRemoveCalled : Bool := false
  /-- `_cleanup` returned early (an inner `return`) -/
  earlyReturn : Bool := false
  /-- the top-level `except Exception` handler fired -/
  caught : Bool := false
  deriving Repr

/-- Tail of `WorktreeOverlayFs._cleanup` after a successful publish step
(worktree.py 353-368): update the latest pointer (its `OSError`
propagates, its `CalledProcessError` is swallowed inside
`repoint_latest_branch`), then unmount — `umount(check=True)` inside a
`try` whose `except CalledProcessError` logs and returns early — and
only then remove the cache-side base directory (`ignore_errors=True`).

The `keep` gate is *modelled from the spec* (§4.3 step 4) exactly as for
the plain strategy: src/test/test_keep_option.py requires that with
`keep=true` the fetch, verify and `git branch -f` calls still happen,
`fusermount -u` is never called, nothing is deleted, and "Keeping
overlay mounted ..." is logged.  With `keep = false` this definition is
exactly worktree.py 353-368. -/
def WorktreeOverlayFs.cleanupRest (e : OvEnv) (dirty added : Bool)
    (msgs : List String) (tip : Nat) : Except (GitError × OOut) OOut :=
  match e.repointRes with
  | .oserr =>
      .error (.osError,
        { dirty := dirty, addedAll := added, syntheticMsgs := msgs,
          fetchTried := true, publishOk := true, repointCalled := true,
          latest := e.latest0, tip := tip })
  | r =>
      let latest := if r = .ok then some tip else e.latest0
      if e.keep then
        .ok { dirty := dirty, addedAll := added, syntheticMsgs := msgs,
              fetchTried := true, publishOk := true, repointCalled := true,
              latest := latest, tip := tip, keepLogged := true }
      else if e.mountDirExists then
        match e.unmountRes with
        | .oserr =>
            .error (.osError,
              { dirty := dirty, addedAll := added, syntheticMsgs := msgs,
                fetchTried := true, publishOk := true, repointCalled := true,
                latest := latest, tip := tip, unmountCalled := true })
        | .fail =>
            .ok { dirty := dirty, addedAll := added, syntheticMsgs := msgs,
                  fetchTried := true, publishOk := true, repointCalled := true,
                  latest := latest, tip := tip, unmountCalled := true,
                  recoveryLogged := true, earlyReturn := true }
        | .ok =>
            .ok { dirty := dirty, addedAll := added, syntheticMsgs := msgs,
                  fetchTried := true, publishOk := true, repointCalled := true,
                  latest := latest, tip := tip, unmountCalled := true,
                  unmountedOk := true, cacheRemoveCalled := e.cacheDirExists }
      else
        .ok { dirty := dirty, addedAll := added, syntheticMsgs := msgs,
              fetchTried := true, publishOk := true, repointCalled := true,
              latest := latest, tip := tip,
              cacheRemoveCalled := e.cacheDirExists }

/-- Publish step of `WorktreeOverlayFs._cleanup` (worktree.py 322-351):
`git fetch <mount> <branch>:<branch>` then `git rev-parse --verify
<branch>`, both `check=True`, inside a `try` whose `except
CalledProcessError` logs manual-recovery commands and returns early.
An `OSError` escapes the handler. -/
def WorktreeOverlayFs.publishStep (e : OvEnv) (dirty added : Bool)
    (msgs : List String) (tip : Nat) : Except (GitError × OOut) OOut :=
  match e.fetchRes with
  | .oserr =>
      .error (.osError,
        { dirty := dirty, addedAll := added, syntheticMsgs := msgs,
          fetchTried := true, latest := e.latest0, tip := tip })
  | .fail =>
      .ok { dirty := dirty, addedAll := added, syntheticMsgs := msgs,
            fetchTried := true, recoveryLogged := true, earlyReturn := true,
            latest := e.latest0, tip := tip }
  | .ok =>
      match e.verifyRes with
      | .oserr =>
          .error (.osError,
            { dirty := dirty, addedAll := added, syntheticMsgs := msgs,
              fetchTried := true, latest := e.latest0, tip := tip })
      | .fail =>
          .ok { dirty := dirty, addedAll := added, syntheticMsgs := msgs,
                fetchTried := true, recoveryLogged := true, earlyReturn := true,
                latest := e.latest0, tip := tip }
      | .ok =>
          WorktreeOverlayFs.cleanupRest e dirty added msgs tip

/-- Body of `WorktreeOverlayFs._cleanup` (worktree.py 292-368): the
dirty check and safety-net commit (identical to the plain strategy,
worktree.py 293-320), then the publish step, then
`WorktreeOverlayFs.cleanupRest`. -/
def WorktreeOverlayFs.cleanupBody (e : OvEnv) : Except (GitError × OOut) OOut :=
  if e.diffRaises then
    .error (.osError, { latest := e.latest0, tip := e.tip })
  else if gitDiffDirty e.status then
    match e.addRes with
    | .oserr =>
        .error (.osError, { dirty := true, latest := e.latest0, tip := e.tip })
    | .fail =>
        .ok { dirty := true, recoveryLogged := true, earlyReturn := true,
              latest := e.latest0, tip := e.tip }
    | .ok =>
        match e.commitRes with
        | .oserr =>
            .error (.osError,
              { dirty := true, addedAll := true, latest := e.latest0, tip := e.tip })
        | .fail =>
            .ok { dirty := true, addedAll := true, recoveryLogged := true,
                  earlyReturn := true, latest := e.latest0, tip := e.tip }
        | .ok =>
            WorktreeOverlayFs.publishStep e true true [fixmeMsg] (e.tip + 1)
  else
    WorktreeOverlayFs.publishStep e false false [] e.tip

/-- `WorktreeOverlayFs._cleanup` (worktree.py 290-371): the body wrapped
in `try ... except Exception` — every exception value is caught, logged
and swallowed, so the result is always `Except.ok`. -/
def WorktreeOverlayFs.cleanup (e : OvEnv) : Except (GitError × OOut) OOut :=
  match WorktreeOverlayFs.cleanupBody e with
  | .ok o => .ok o
  | .error (_, o) => .ok { o with caught := true }

/-- The effect record of an overlay teardown (projection of
`WorktreeOverlayFs.cleanup`, which never returns `.error`). -/
def WorktreeOverlayFs.cleanupOut (e : OvEnv) : OOut :=
  match WorktreeOverlayFs.cleanup e with
  | .ok o => o
  | .error (_, o) => o

/-! ## Overlay strategy construction: `WorktreeOverlayFs.from_branch`
(worktree.py 200-288).  The branch-name computation (uuid + timestamp)
and the `mkdir` scaffolding are outside the model; the modelled part is
the mount command, the forced branch checkout inside the mount, and the
rollback each performs on failure (worktree.py 254-280). -/

/-- Environment of one overlay construction attempt. -/
structure OvCreateEnv where
  /-- outcome of `fuse-overlayfs -o lowerdir=...,upperdir=...,workdir=... <mount_dir>` -/
  mountRes : CmdRes
  /-- outcome of `git checkout -fb <branch> <base_branch>` inside the mount -/
  checkoutRes : CmdRes

/-- How `WorktreeOverlayFs.from_branch` ends. -/
inductive FBOutcome where
  | ok
  /-- the `RuntimeError("Failed to mount overlay filesystem ...")` raised
  on mount failure -/
  | mountError
  /-- the `RuntimeError("Failed to create git branch ...")` raised on
  checkout failure -/
  | branchError
  /-- an `OSError` escaped (no handler in `from_branch` catches it) -/
  | raisedOs
  deriving DecidableEq, Repr

/-- Observable effects of one overlay construction attempt. -/
structure FBOut where
  outcome : FBOutcome
  /-- `shutil.rmtree(overlay_base_dir, ignore_errors=True)` was invoked -/
  baseDirRemoved : Bool
  /-- the best-effort `fusermount -u` (`check=False`, non-raising) rollback ran -/
  rollbackUnmountCalled : Bool
  /-- a workspace object was returned -/
  workspaceReturned : Bool
  deriving DecidableEq, Repr

/-- `WorktreeOverlayFs.from_branch`, mount and checkout part
(worktree.py 254-288): mount failure (`except CalledProcessError`) →
remove the whole cache-side base directory, raise the mount
`RuntimeError`; checkout failure → best-effort unmount (`check=False`),
remove the base directory, raise the branch `RuntimeError`; otherwise
return the workspace object. -/
def WorktreeOverlayFs.fromBranch (e : OvCreateEnv) : FBOut :=
  match e.mountRes with
  | .oserr => ⟨.raisedOs, false, false, false⟩
  | .fail => ⟨.mountError, true, false, false⟩
  | .ok =>
      match e.checkoutRes with
      | .oserr => ⟨.raisedOs, false, false, false⟩
      | .fail => ⟨.branchError, true, true, false⟩
      | .ok => ⟨.ok, false, false, true⟩

/-! ## Branch resolver and reconciliation (src/papagai/cli.py) -/

/-- A repository's branch namespace for the branch-resolver model:
`refs b` is the commit at the tip of branch `b` (`none`: no such
branch), `createOk` says whether the `git branch <spec> <base>` command
runs without incidental failure. -/
structure BranchRepo where
  refs : String → Option Nat
  createOk : Bool

/-- `branch_exists` (cli.py 114-120): `git rev-parse --verify
refs/heads/<branch>` with `check=False`, exit 0 iff the branch exists. -/
def branch_exists (r : BranchRepo) (b : String) : Bool :=
  (r.refs b).isSome

/-- `create_branch_if_not_exists` (cli.py 123-138): `None` or `"."`
returns the base branch unchanged; an existing branch is returned
unchanged; otherwise `git branch <spec> <base>` (`check=True`) creates
the branch at the base branch's tip — it exits non-zero (raising
`CalledProcessError`) when the base is unresolvable or on incidental
failure. -/
def create_branch_if_not_exists (r : BranchRepo) (branchSpec : Option String)
    (baseBranch : String) : Except GitError (String × BranchRepo) :=
  match branchSpec with
  | none => .ok (baseBranch, r)
  | some s =>
      if s = "." then .ok (baseBranch, r)
      else if branch_exists r s then .ok (s, r)
      else if (r.refs baseBranch).isSome && r.createOk then
        .ok (s, { r with refs := fun b => if b = s then r.refs baseBranch else r.refs b })
      else
        .error .calledProcess

/-- Repository state for the merge model.  `anc a b` is the exit-0
relation of `git merge-base --is-ancestor a b` ("commit `a` is an
ancestor of commit `b`", reflexively).  No command in
`merge_into_target_branch` creates commits, so the ancestry relation is
fixed.  `headBranch` is the current checkout (`none` models
current-branch detection raising, e.g. a broken HEAD — the code treats
that as "not checked out").  `mergeCmdOk` / `fetchCmdOk` say whether
`git merge --ff-only` / `git fetch . src:dest` run without incidental
(non-fast-forward-related) failure such as a blocking dirty working
tree. -/
structure MergeRepo where
  refs : String → Option Nat
  headBranch : Option String
  anc : Nat → Nat → Bool
  mergeCmdOk : Bool
  fetchCmdOk : Bool

/-- Exit-0 test of `git merge-base --is-ancestor dest src`
(cli.py 142-152): non-zero when either ref is unresolvable or the tip of
`dest` is not an ancestor of the tip of `src`. -/
def ancCheck (r : MergeRepo) (dest src : String) : Bool :=
  match r.refs dest, r.refs src with
  | some d, some s => r.anc d s
  | _, _ => false

/-- `is_checked_out` of cli.py 167-171: `get_branch(repo, "HEAD")`
compared against `dest`; if detection raises, `False`. -/
def isCurrentCheckout (r : MergeRepo) (dest : String) : Bool :=
  match r.headBranch with
  | some b => b = dest
  | none => false

/-- Result of `merge_into_target_branch`: the exit status it returns
(0 success, 1 failure), the branch namespace afterwards, and which of
the two update paths was taken. -/
structure MOut where
  code : Nat
  refs : String → Option Nat
  usedWorkdirMerge : Bool
  usedRefFetch : Bool

/-- `merge_into_target_branch` (cli.py 141-198): fail with exit 1 and no
mutation unless `dest` is an ancestor of `src`; then fast-forward `dest`
to `src`'s tip either by a working-directory `git merge --ff-only src`
(when `dest` is the current checkout) or by an internal `git fetch .
src:dest`; a `CalledProcessError` from either is caught, reported, and
turned into exit 1 with no ref mutation. -/
def merge_into_target_branch (r : MergeRepo) (dest src : String) : MOut :=
  if ancCheck r dest src = false then
    ⟨1, r.refs, false, false⟩
  else if isCurrentCheckout r dest then
    if r.mergeCmdOk then
      ⟨0, fun b => if b = dest then r.refs src else r.refs b, true, false⟩
    else ⟨1, r.refs, true, false⟩
  else
    if r.fetchCmdOk then
      ⟨0, fun b => if b = dest then r.refs src else r.refs b, false, true⟩
    else ⟨1, r.refs, false, true⟩

/-! ## Claim theorems -/

/-- C6: for every workspace (plain or overlay) and every internal state —
i.e. every environment of command outcomes, including ones where
commands raise `OSError` — the teardown procedure returns normally
(`Except.ok`) and never propagates an exception: the top-level
`except Exception` handler catches every error value. -/
theorem teardown_never_propagates (ep : PlainEnv) (eo : OvEnv) :
    returnsNormally (Worktree.cleanup ep) = true ∧
    returnsNormally (WorktreeOverlayFs.cleanup eo) = true := by
  constructor
  · cases h : Worktree.cleanupBody ep with
    | ok o => simp [Worktree.cleanup, h, returnsNormally]
    | error p => obtain ⟨err, o⟩ := p; simp [Worktree.cleanup, h, returnsNormally]
  · cases h : WorktreeOverlayFs.cleanupBody eo with
    | ok o => simp [WorktreeOverlayFs.cleanup, h, returnsNormally]
    | error p => obtain ⟨err, o⟩ := p; simp [WorktreeOverlayFs.cleanup, h, returnsNormally]

/-- C2: for every teardown invocation (plain and overlay) in which the
commands of the safety-net phase do not fail: if the tree is clean no
synthetic commit is created; if dirty, everything is staged first and
exactly one commit with the fixed message `FIXME: changes left in
worktree` is created; teardown then proceeds to the latest-pointer
update and to the physical-cleanup step (which removes, or with `keep`
logs and skips). -/
theorem safety_net_idempotent (ep : PlainEnv) (eo : OvEnv)
    (hp1 : ep.diffRaises = false)
    (hp2 : ep.status.unstagedTracked = true → ep.addRes = .ok ∧ ep.commitRes = .ok)
    (hp3 : ep.repointRes ≠ .oserr)
    (ho1 : eo.diffRaises = false)
    (ho2 : eo.status.unstagedTracked = true → eo.addRes = .ok ∧ eo.commitRes = .ok)
    (ho3 : eo.fetchRes = .ok) (ho4 : eo.verifyRes = .ok)
    (ho5 : eo.repointRes ≠ .oserr) :
    ((ep.status.unstagedTracked = false →
        (Worktree.cleanupOut ep).syntheticMsgs = []) ∧
     (ep.status.unstagedTracked = true →
        (Worktree.cleanupOut ep).addedAll = true ∧
        (Worktree.cleanupOut ep).syntheticMsgs = [fixmeMsg]) ∧
     (Worktree.cleanupOut ep).repointCalled = true ∧
     (ep.keep = false → (Worktree.cleanupOut ep).wtRemoveCalled = true) ∧
     (ep.keep = true → (Worktree.cleanupOut ep).keepLogged = true)) ∧
    ((eo.status.unstagedTracked = false →
        (WorktreeOverlayFs.cleanupOut eo).syntheticMsgs = []) ∧
     (eo.status.unstagedTracked = true →
        (WorktreeOverlayFs.cleanupOut eo).addedAll = true ∧
        (WorktreeOverlayFs.cleanupOut eo).syntheticMsgs = [fixmeMsg]) ∧
     (WorktreeOverlayFs.cleanupOut eo).repointCalled = true ∧
     (eo.keep = false → eo.mountDirExists = true →
        (WorktreeOverlayFs.cleanupOut eo).unmountCalled = true) ∧
     (eo.keep = true → (WorktreeOverlayFs.cleanupOut eo).keepLogged = true)) := by
  obtain ⟨⟨pu, ps, pt⟩, pkeep, ptip, pl0, pdr, par, pcr, prr, pwr, prk⟩ := ep
  obtain ⟨⟨ou, os, ot⟩, okeep, otip, ol0, odr, oar, ocr, ofr, ovr, orr, omd, our, ocd⟩ := eo
  simp only at hp1 hp2 hp3 ho1 ho2 ho3 ho4 ho5
  subst hp1 ho1 ho3 ho4
  constructor
  · cases pu with
    | false =>
        cases prr <;> simp_all [Worktree.cleanupOut, Worktree.cleanup,
          Worktree.cleanupBody, Worktree.cleanupRest, gitDiffDirty] <;>
          cases pkeep <;> cases pwr <;> simp_all
    | true =>
        obtain ⟨ha, hc⟩ := hp2 rfl
        subst ha hc
        cases prr <;> simp_all [Worktree.cleanupOut, Worktree.cleanup,
          Worktree.cleanupBody, Worktree.cleanupRest, gitDiffDirty] <;>
          cases pkeep <;> cases pwr <;> simp_all
  · cases ou with
    | false =>
        cases orr <;> simp_all [WorktreeOverlayFs.cleanupOut, WorktreeOverlayFs.cleanup,
          WorktreeOverlayFs.cleanupBody, WorktreeOverlayFs.publishStep,
          WorktreeOverlayFs.cleanupRest, gitDiffDirty] <;>
          cases okeep <;> cases omd <;> cases our <;> simp_all
    | true =>
        obtain ⟨ha, hc⟩ := ho2 rfl
        subst ha hc
        cases orr <;> simp_all [WorktreeOverlayFs.cleanupOut, WorktreeOverlayFs.cleanup,
          WorktreeOverlayFs.cleanupBody, WorktreeOverlayFs.publishStep,
          WorktreeOverlayFs.cleanupRest, gitDiffDirty] <;>
          cases okeep <;> cases omd <;> cases our <;> simp_all

/-- Closed instance of `safety_net_idempotent` at a dirty plain
environment and a clean overlay environment. -/
theorem safety_net_idempotent_witness :
    (Worktree.cleanupOut
      { status := ⟨true, false, false⟩, keep := false, tip := 7, latest0 := none,
        diffRaises := false, addRes := .ok, commitRes := .ok, repointRes := .ok,
        wtRemoveRes := .ok, rmtreeOk := true }).syntheticMsgs = [fixmeMsg] ∧
    (WorktreeOverlayFs.cleanupOut
      { status := ⟨false, true, true⟩, keep := false, tip := 7, latest0 := none,
        diffRaises := false, addRes := .ok, commitRes := .ok, fetchRes := .ok,
        verifyRes := .ok, repointRes := .ok, mountDirExists := true,
        unmountRes := .ok, cacheDirExists := true }).syntheticMsgs = [] := by
  have h := safety_net_idempotent
    { status := ⟨true, false, false⟩, keep := false, tip := 7, latest0 := none,
      diffRaises := false, addRes := .ok, commitRes := .ok, repointRes := .ok,
      wtRemoveRes := .ok, rmtreeOk := true }
    { status := ⟨false, true, true⟩, keep := false, tip := 7, latest0 := none,
      diffRaises := false, addRes := .ok, commitRes := .ok, fetchRes := .ok,
      verifyRes := .ok, repointRes := .ok, mountDirExists := true,
      unmountRes := .ok, cacheDirExists := true }
    rfl (fun _ => ⟨rfl, rfl⟩) (by decide) rfl (fun h => absurd h (by decide)) rfl rfl
    (by decide)
  exact ⟨(h.1.2.1 rfl).2, h.2.1 rfl⟩

/-- C1: with `keep=true` (plain or overlay; the flag is modelled from
the spec, see `Worktree.cleanupRest`), a teardown that reaches the
cleanup phase skips the physical cleanup entirely — no worktree removal
or directory deletion (plain), no unmount or cache-directory deletion
(overlay) — logs the informational "Keeping ..." message, and still
updates the latest-run pointer to the workspace branch's tip; with
`keep=false` the workspace directory (plain) resp. the overlay cache
base directory is removed. -/
theorem keep_flag_governs_physical_cleanup (ep : PlainEnv) (eo : OvEnv)
    (hp1 : ep.diffRaises = false)
    (hp2 : ep.status.unstagedTracked = true → ep.addRes = .ok ∧ ep.commitRes = .ok)
    (hp3 : ep.repointRes = .ok)
    (ho1 : eo.diffRaises = false)
    (ho2 : eo.status.unstagedTracked = true → eo.addRes = .ok ∧ eo.commitRes = .ok)
    (ho3 : eo.fetchRes = .ok) (ho4 : eo.verifyRes = .ok)
    (ho5 : eo.repointRes = .ok) :
    (ep.keep = true →
       (Worktree.cleanupOut ep).keepLogged = true ∧
       (Worktree.cleanupOut ep).wtRemoveCalled = false ∧
       (Worktree.cleanupOut ep).dirRemoved = false ∧
       (Worktree.cleanupOut ep).repointCalled = true ∧
       (Worktree.cleanupOut ep).latest = some (Worktree.cleanupOut ep).tip) ∧
    (ep.keep = false → ep.wtRemoveRes = .ok →
       (Worktree.cleanupOut ep).dirRemoved = true) ∧
    (eo.keep = true →
       (WorktreeOverlayFs.cleanupOut eo).keepLogged = true ∧
       (WorktreeOverlayFs.cleanupOut eo).unmountCalled = false ∧
       (WorktreeOverlayFs.cleanupOut eo).cacheRemoveCalled = false ∧
       (WorktreeOverlayFs.cleanupOut eo).repointCalled = true ∧
       (WorktreeOverlayFs.cleanupOut eo).latest
         = some (WorktreeOverlayFs.cleanupOut eo).tip) ∧
    (eo.keep = false → eo.mountDirExists = true → eo.unmountRes = .ok →
       eo.cacheDirExists = true →
       (WorktreeOverlayFs.cleanupOut eo).cacheRemoveCalled = true) := by
  obtain ⟨⟨pu, ps, pt⟩, pkeep, ptip, pl0, pdr, par, pcr, prr, pwr, prk⟩ := ep
  obtain ⟨⟨ou, os, ot⟩, okeep, otip, ol0, odr, oar, ocr, ofr, ovr, orr, omd, our, ocd⟩ := eo
  simp only at hp1 hp2 hp3 ho1 ho2 ho3 ho4 ho5
  subst hp1 hp3 ho1 ho3 ho4 ho5
  refine ⟨?_, ?_, ?_, ?_⟩
  · cases pu with
    | false =>
        cases pkeep <;> simp_all [Worktree.cleanupOut, Worktree.cleanup,
          Worktree.cleanupBody, Worktree.cleanupRest, gitDiffDirty]
    | true =>
        obtain ⟨ha, hc⟩ := hp2 rfl
        subst ha hc
        cases pkeep <;> simp_all [Worktree.cleanupOut, Worktree.cleanup,
          Worktree.cleanupBody, Worktree.cleanupRest, gitDiffDirty]
  · cases pu with
    | false =>
        cases pkeep <;> cases pwr <;> simp_all [Worktree.cleanupOut, Worktree.cleanup,
          Worktree.cleanupBody, Worktree.cleanupRest, gitDiffDirty]
    | true =>
        obtain ⟨ha, hc⟩ := hp2 rfl
        subst ha hc
        cases pkeep <;> cases pwr <;> simp_all [Worktree.cleanupOut, Worktree.cleanup,
          Worktree.cleanupBody, Worktree.cleanupRest, gitDiffDirty]
  · cases ou with
    | false =>
        cases okeep <;> simp_all [WorktreeOverlayFs.cleanupOut, WorktreeOverlayFs.cleanup,
          WorktreeOverlayFs.cleanupBody, WorktreeOverlayFs.publishStep,
          WorktreeOverlayFs.cleanupRest, gitDiffDirty]
    | true =>
        obtain ⟨ha, hc⟩ := ho2 rfl
        subst ha hc
        cases okeep <;> simp_all [WorktreeOverlayFs.cleanupOut, WorktreeOverlayFs.cleanup,
          WorktreeOverlayFs.cleanupBody, WorktreeOverlayFs.publishStep,
          WorktreeOverlayFs.cleanupRest, gitDiffDirty]
  · cases ou with
    | false =>
        cases okeep <;> cases omd <;> cases our <;>
          simp_all [WorktreeOverlayFs.cleanupOut, WorktreeOverlayFs.cleanup,
            WorktreeOverlayFs.cleanupBody, WorktreeOverlayFs.publishStep,
            WorktreeOverlayFs.cleanupRest, gitDiffDirty]
    | true =>
        obtain ⟨ha, hc⟩ := ho2 rfl
        subst ha hc
        cases okeep <;> cases omd <;> cases our <;>
          simp_all [WorktreeOverlayFs.cleanupOut, WorktreeOverlayFs.cleanup,
            WorktreeOverlayFs.cleanupBody, WorktreeOverlayFs.publishStep,
            WorktreeOverlayFs.cleanupRest, gitDiffDirty]

/-- Closed instance of `keep_flag_governs_physical_cleanup`: a dirty
`keep=true` plain workspace is kept and the pointer lands on its new
tip; a clean `keep=false` overlay workspace has its cache directory
removed. -/
theorem keep_flag_witness :
    ((Worktree.cleanupOut
       { status := ⟨true, false, false⟩, keep := true, tip := 4, latest0 := some 0,
         diffRaises := false, addRes := .ok, commitRes := .ok, repointRes := .ok,
         wtRemoveRes := .fail, rmtreeOk := false }).dirRemoved = false ∧
     (Worktree.cleanupOut
       { status := ⟨true, false, false⟩, keep := true, tip := 4, latest0 := some 0,
         diffRaises := false, addRes := .ok, commitRes := .ok, repointRes := .ok,
         wtRemoveRes := .fail, rmtreeOk := false }).latest = some 5) ∧
    (WorktreeOverlayFs.cleanupOut
       { status := ⟨false, false, false⟩, keep := false, tip := 4, latest0 := some 0,
         diffRaises := false, addRes := .ok, commitRes := .ok, fetchRes := .ok,
         verifyRes := .ok, repointRes := .ok, mountDirExists := true,
         unmountRes := .ok, cacheDirExists := true }).cacheRemoveCalled = true := by
  have h := keep_flag_governs_physical_cleanup
    { status := ⟨true, false, false⟩, keep := true, tip := 4, latest0 := some 0,
      diffRaises := false, addRes := .ok, commitRes := .ok, repointRes := .ok,
      wtRemoveRes := .fail, rmtreeOk := false }
    { status := ⟨false, false, false⟩, keep := false, tip := 4, latest0 := some 0,
      diffRaises := false, addRes := .ok, commitRes := .ok, fetchRes := .ok,
      verifyRes := .ok, repointRes := .ok, mountDirExists := true,
      unmountRes := .ok, cacheDirExists := true }
    rfl (fun _ => ⟨rfl, rfl⟩) rfl rfl (fun h => absurd h (by decide)) rfl rfl rfl
  refine ⟨⟨(h.1 rfl).2.2.1, ?_⟩, h.2.2.2 rfl rfl rfl rfl⟩
  have h2 := (h.1 rfl).2.2.2.2
  simpa using h2

/-- C3: for every teardown (plain or overlay) in which the tree is dirty
and the safety-net stage-and-commit attempt fails (`git add -A` or
`git commit` exits non-zero), teardown aborts early: manual-recovery
commands are logged and `_cleanup` returns without updating the
latest-run pointer and without any physical cleanup — no worktree
removal or directory deletion, no fetch, no unmount, no cache-directory
removal. -/
theorem commit_failure_aborts_teardown (ep : PlainEnv) (eo : OvEnv)
    (hp1 : ep.diffRaises = false)
    (hp2 : ep.status.unstagedTracked = true)
    (hp3 : ep.addRes = .fail ∨ (ep.addRes = .ok ∧ ep.commitRes = .fail))
    (ho1 : eo.diffRaises = false)
    (ho2 : eo.status.unstagedTracked = true)
    (ho3 : eo.addRes = .fail ∨ (eo.addRes = .ok ∧ eo.commitRes = .fail)) :
    ((Worktree.cleanupOut ep).earlyReturn = true ∧
     (Worktree.cleanupOut ep).recoveryLogged = true ∧
     (Worktree.cleanupOut ep).repointCalled = false ∧
     (Worktree.cleanupOut ep).latest = ep.latest0 ∧
     (Worktree.cleanupOut ep).wtRemoveCalled = false ∧
     (Worktree.cleanupOut ep).dirRemoved = false) ∧
    ((WorktreeOverlayFs.cleanupOut eo).earlyReturn = true ∧
     (WorktreeOverlayFs.cleanupOut eo).recoveryLogged = true ∧
     (WorktreeOverlayFs.cleanupOut eo).repointCalled = false ∧
     (WorktreeOverlayFs.cleanupOut eo).latest = eo.latest0 ∧
     (WorktreeOverlayFs.cleanupOut eo).fetchTried = false ∧
     (WorktreeOverlayFs.cleanupOut eo).unmountCalled = false ∧
     (WorktreeOverlayFs.cleanupOut eo).cacheRemoveCalled = false) := by
  obtain ⟨⟨pu, ps, pt⟩, pkeep, ptip, pl0, pdr, par, pcr, prr, pwr, prk⟩ := ep
  obtain ⟨⟨ou, os, ot⟩, okeep, otip, ol0, odr, oar, ocr, ofr, ovr, orr, omd, our, ocd⟩ := eo
  simp only at hp1 hp2 hp3 ho1 ho2 ho3
  subst hp1 hp2 ho1 ho2
  constructor
  · rcases hp3 with ha | ⟨ha, hc⟩ <;> subst ha <;> try subst hc
    all_goals simp_all [Worktree.cleanupOut, Worktree.cleanup,
      Worktree.cleanupBody, Worktree.cleanupRest, gitDiffDirty]
  · rcases ho3 with ha | ⟨ha, hc⟩ <;> subst ha <;> try subst hc
    all_goals simp_all [WorktreeOverlayFs.cleanupOut, WorktreeOverlayFs.cleanup,
      WorktreeOverlayFs.cleanupBody, WorktreeOverlayFs.publishStep,
      WorktreeOverlayFs.cleanupRest, gitDiffDirty]

/-- Closed instance of `commit_failure_aborts_teardown`: a plain
teardown with a failing `git add` and an overlay teardown with a failing
`git commit`. -/
theorem commit_failure_aborts_witness :
    (Worktree.cleanupOut
      { status := ⟨true, false, false⟩, keep := false, tip := 2, latest0 := some 1,
        diffRaises := false, addRes := .fail, commitRes := .ok, repointRes := .ok,
        wtRemoveRes := .ok, rmtreeOk := true }).latest = some 1 ∧
    (WorktreeOverlayFs.cleanupOut
      { status := ⟨true, true, true⟩, keep := false, tip := 2, latest0 := none,
        diffRaises := false, addRes := .ok, commitRes := .fail, fetchRes := .ok,
        verifyRes := .ok, repointRes := .ok, mountDirExists := true,
        unmountRes := .ok, cacheDirExists := true }).unmountCalled = false := by
  have h := commit_failure_aborts_teardown
    { status := ⟨true, false, false⟩, keep := false, tip := 2, latest0 := some 1,
      diffRaises := false, addRes := .fail, commitRes := .ok, repointRes := .ok,
      wtRemoveRes := .ok, rmtreeOk := true }
    { status := ⟨true, true, true⟩, keep := false, tip := 2, latest0 := none,
      diffRaises := false, addRes := .ok, commitRes := .fail, fetchRes := .ok,
      verifyRes := .ok, repointRes := .ok, mountDirExists := true,
      unmountRes := .ok, cacheDirExists := true }
    rfl rfl (Or.inl rfl) rfl rfl (Or.inr ⟨rfl, rfl⟩)
  exact ⟨h.1.2.2.2.1, h.2.2.2.2.2.2.1⟩

/-- C8: overlay teardown never destroys a still-mounted filesystem's
backing store.  (a) If the branch publish (fetch into the primary repo,
then verify) fails, teardown aborts early with recovery commands logged,
without unmounting, without touching the latest pointer and without
deleting anything.  (b) The unmount is only ever reached after the
publish succeeded.  (c) If the publish succeeded but the unmount fails,
teardown stops without removing the cache-side base directory.  (d) The
cache directory is removed only after a successful unmount whenever the
mount point exists. -/
theorem overlay_unmount_ordering (e : OvEnv)
    (h1 : e.diffRaises = false)
    (h2 : e.status.unstagedTracked = true → e.addRes = .ok ∧ e.commitRes = .ok) :
    ((e.fetchRes = .fail ∨ (e.fetchRes = .ok ∧ e.verifyRes = .fail)) →
       (WorktreeOverlayFs.cleanupOut e).earlyReturn = true ∧
       (WorktreeOverlayFs.cleanupOut e).recoveryLogged = true ∧
       (WorktreeOverlayFs.cleanupOut e).repointCalled = false ∧
       (WorktreeOverlayFs.cleanupOut e).unmountCalled = false ∧
       (WorktreeOverlayFs.cleanupOut e).cacheRemoveCalled = false) ∧
    ((WorktreeOverlayFs.cleanupOut e).unmountCalled = true →
       (WorktreeOverlayFs.cleanupOut e).publishOk = true) ∧
    ((WorktreeOverlayFs.cleanupOut e).unmountCalled = true → e.unmountRes = .fail →
       (WorktreeOverlayFs.cleanupOut e).cacheRemoveCalled = false ∧
       (WorktreeOverlayFs.cleanupOut e).recoveryLogged = true ∧
       (WorktreeOverlayFs.cleanupOut e).earlyReturn = true) ∧
    ((WorktreeOverlayFs.cleanupOut e).cacheRemoveCalled = true →
       e.mountDirExists = true → e.unmountRes = .ok) := by
  obtain ⟨⟨ou, os, ot⟩, okeep, otip, ol0, odr, oar, ocr, ofr, ovr, orr, omd, our, ocd⟩ := e
  simp only at h1 h2
  subst h1
  cases ou with
  | false =>
      cases ofr <;> cases ovr <;> cases orr <;> cases okeep <;> cases omd <;>
        cases our <;> simp_all [WorktreeOverlayFs.cleanupOut, WorktreeOverlayFs.cleanup,
          WorktreeOverlayFs.cleanupBody, WorktreeOverlayFs.publishStep,
          WorktreeOverlayFs.cleanupRest, gitDiffDirty]
  | true =>
      obtain ⟨ha, hc⟩ := h2 rfl
      subst ha hc
      cases ofr <;> cases ovr <;> cases orr <;> cases okeep <;> cases omd <;>
        cases our <;> simp_all [WorktreeOverlayFs.cleanupOut, WorktreeOverlayFs.cleanup,
          WorktreeOverlayFs.cleanupBody, WorktreeOverlayFs.publishStep,
          WorktreeOverlayFs.cleanupRest, gitDiffDirty]

/-- Closed instance of `overlay_unmount_ordering`: a failing fetch
leaves everything mounted and intact; a failing unmount keeps the cache
directory. -/
theorem overlay_unmount_ordering_witness :
    (WorktreeOverlayFs.cleanupOut
      { status := ⟨false, false, false⟩, keep := false, tip := 2, latest0 := none,
        diffRaises := false, addRes := .ok, commitRes := .ok, fetchRes := .fail,
        verifyRes := .ok, repointRes := .ok, mountDirExists := true,
        unmountRes := .ok, cacheDirExists := true }).unmountCalled = false ∧
    (WorktreeOverlayFs.cleanupOut
      { status := ⟨false, false, false⟩, keep := false, tip := 2, latest0 := none,
        diffRaises := false, addRes := .ok, commitRes := .ok, fetchRes := .ok,
        verifyRes := .ok, repointRes := .ok, mountDirExists := true,
        unmountRes := .fail, cacheDirExists := true }).cacheRemoveCalled = false := by
  have ha := overlay_unmount_ordering
    { status := ⟨false, false, false⟩, keep := false, tip := 2, latest0 := none,
      diffRaises := false, addRes := .ok, commitRes := .ok, fetchRes := .fail,
      verifyRes := .ok, repointRes := .ok, mountDirExists := true,
      unmountRes := .ok, cacheDirExists := true }
    rfl (fun h => absurd h (by decide))
  have hb := overlay_unmount_ordering
    { status := ⟨false, false, false⟩, keep := false, tip := 2, latest0 := none,
      diffRaises := false, addRes := .ok, commitRes := .ok, fetchRes := .ok,
      verifyRes := .ok, repointRes := .ok, mountDirExists := true,
      unmountRes := .fail, cacheDirExists := true }
    rfl (fun h => absurd h (by decide))
  exact ⟨(ha.1 (Or.inl rfl)).2.2.2.1, (hb.2.2.1 (by decide) rfl).1⟩

/-- C9: overlay workspace construction rolls back partial state on
failure: if the overlay mount command fails, the whole cache-side base
directory is removed and the mount `RuntimeError` is raised; if the
mount succeeds but the forced branch checkout inside the mount fails, a
best-effort non-raising unmount is performed, the cache-side base
directory is removed, and the branch-creation `RuntimeError` is raised;
in both failure cases no workspace object is returned. -/
theorem overlay_create_rollback (e : OvCreateEnv) :
    (e.mountRes = .fail →
       (WorktreeOverlayFs.fromBranch e).outcome = .mountError ∧
       (WorktreeOverlayFs.fromBranch e).baseDirRemoved = true ∧
       (WorktreeOverlayFs.fromBranch e).workspaceReturned = false) ∧
    (e.mountRes = .ok → e.checkoutRes = .fail →
       (WorktreeOverlayFs.fromBranch e).outcome = .branchError ∧
       (WorktreeOverlayFs.fromBranch e).rollbackUnmountCalled = true ∧
       (WorktreeOverlayFs.fromBranch e).baseDirRemoved = true ∧
       (WorktreeOverlayFs.fromBranch e).workspaceReturned = false) := by
  obtain ⟨mr, cr⟩ := e
  cases mr <;> cases cr <;> simp_all [WorktreeOverlayFs.fromBranch]

/-- Closed instance of `overlay_create_rollback` at both failure
environments. -/
theorem overlay_create_rollback_witness :
    (WorktreeOverlayFs.fromBranch ⟨.fail, .ok⟩).baseDirRemoved = true ∧
    (WorktreeOverlayFs.fromBranch ⟨.ok, .fail⟩).rollbackUnmountCalled = true := by
  exact ⟨((overlay_create_rollback ⟨.fail, .ok⟩).1 rfl).2.1,
         ((overlay_create_rollback ⟨.ok, .fail⟩).2 rfl rfl).2.1⟩

/-- C4: `merge_into_target_branch` fails with exit status 1 whenever
`dest` is not an ancestor of `src` (divergence), and in that case
performs no mutation at all — the whole branch namespace, in particular
`dest`'s ref, is unchanged; in every case `src`'s ref is never deleted
or rewritten; and when `dest` is an ancestor of `src` and the chosen
update command runs without incidental failure, the merge returns 0 and
`dest` ends at `src`'s commit. -/
theorem merge_ancestor_guard (r : MergeRepo) (dest src : String) :
    (ancCheck r dest src = false →
       (merge_into_target_branch r dest src).code = 1 ∧
       (merge_into_target_branch r dest src).refs = r.refs) ∧
    ((merge_into_target_branch r dest src).refs src = r.refs src) ∧
    (ancCheck r dest src = true →
       (isCurrentCheckout r dest = true → r.mergeCmdOk = true) →
       (isCurrentCheckout r dest = false → r.fetchCmdOk = true) →
       (merge_into_target_branch r dest src).code = 0 ∧
       (merge_into_target_branch r dest src).refs dest = r.refs src) := by
  refine ⟨?_, ?_, ?_⟩
  · intro h
    simp [merge_into_target_branch, h]
  · by_cases h : ancCheck r dest src = false
    · simp [merge_into_target_branch, h]
    · simp only [Bool.not_eq_false] at h
      cases hco : isCurrentCheckout r dest <;>
        cases hm : r.mergeCmdOk <;> cases hf : r.fetchCmdOk <;>
        simp [merge_into_target_branch, h, hco, hm, hf]
  · intro h hm hf
    cases hco : isCurrentCheckout r dest
    · have := hf hco
      simp [merge_into_target_branch, h, hco, this]
    · have := hm hco
      simp [merge_into_target_branch, h, hco, this]

/-- Closed instance of `merge_ancestor_guard`: diverged branches give
exit 1 with `dest` untouched; an ancestor `dest` is fast-forwarded to
`src`'s tip. -/
theorem merge_ancestor_guard_witness :
    ((merge_into_target_branch
        { refs := fun b => if b = "dest" then some 3 else if b = "src" then some 2 else none,
          headBranch := some "dest", anc := fun a b => decide (a ≤ b),
          mergeCmdOk := true, fetchCmdOk := true } "dest" "src").code = 1 ∧
     (merge_into_target_branch
        { refs := fun b => if b = "dest" then some 3 else if b = "src" then some 2 else none,
          headBranch := some "dest", anc := fun a b => decide (a ≤ b),
          mergeCmdOk := true, fetchCmdOk := true } "dest" "src").refs "dest" = some 3) ∧
    ((merge_into_target_branch
        { refs := fun b => if b = "dest" then some 1 else if b = "src" then some 2 else none,
          headBranch := none, anc := fun a b => decide (a ≤ b),
          mergeCmdOk := true, fetchCmdOk := true } "dest" "src").code = 0 ∧
     (merge_into_target_branch
        { refs := fun b => if b = "dest" then some 1 else if b = "src" then some 2 else none,
          headBranch := none, anc := fun a b => decide (a ≤ b),
          mergeCmdOk := true, fetchCmdOk := true } "dest" "src").refs "dest" = some 2) := by
  have ha := merge_ancestor_guard
    { refs := fun b => if b = "dest" then some 3 else if b = "src" then some 2 else none,
      headBranch := some "dest", anc := fun a b => decide (a ≤ b),
      mergeCmdOk := true, fetchCmdOk := true } "dest" "src"
  have hb := merge_ancestor_guard
    { refs := fun b => if b = "dest" then some 1 else if b = "src" then some 2 else none,
      headBranch := none, anc := fun a b => decide (a ≤ b),
      mergeCmdOk := true, fetchCmdOk := true } "dest" "src"
  have ha1 := ha.1 (by decide)
  have hb1 := hb.2.2 (by decide) (fun h => absurd h (by decide)) (fun _ => rfl)
  refine ⟨⟨ha1.1, ?_⟩, hb1.1, hb1.2⟩
  rw [ha1.2]
  decide

/-- C5: `merge_into_target_branch` is checkout-aware: when `dest` is the
currently checked-out branch it takes the working-directory
`git merge --ff-only` path, otherwise — including when current-branch
detection fails (`headBranch = none`) — it takes the internal ref-only
`git fetch . src:dest` path; and for every `dest` that is an ancestor of
`src`, whichever path is taken, the final value of `dest`'s ref is
`src`'s tip. -/
theorem merge_checkout_awareness (r : MergeRepo) (dest src : String)
    (h : ancCheck r dest src = true) :
    ((merge_into_target_branch r dest src).usedWorkdirMerge
       = isCurrentCheckout r dest) ∧
    ((merge_into_target_branch r dest src).usedRefFetch
       = !isCurrentCheckout r dest) ∧
    (r.headBranch = none →
       (merge_into_target_branch r dest src).usedRefFetch = true) ∧
    (r.mergeCmdOk = true → r.fetchCmdOk = true →
       (merge_into_target_branch r dest src).refs dest = r.refs src) := by
  refine ⟨?_, ?_, ?_, ?_⟩
  · cases hco : isCurrentCheckout r dest <;>
      cases hm : r.mergeCmdOk <;> cases hf : r.fetchCmdOk <;>
      simp [merge_into_target_branch, h, hco, hm, hf]
  · cases hco : isCurrentCheckout r dest <;>
      cases hm : r.mergeCmdOk <;> cases hf : r.fetchCmdOk <;>
      simp [merge_into_target_branch, h, hco, hm, hf]
  · intro hh
    have hco : isCurrentCheckout r dest = false := by
      simp [isCurrentCheckout, hh]
    cases hm : r.mergeCmdOk <;> cases hf : r.fetchCmdOk <;>
      simp [merge_into_target_branch, h, hco, hm, hf]
  · intro hm hf
    cases hco : isCurrentCheckout r dest <;>
      simp [merge_into_target_branch, h, hco, hm, hf]

/-- Closed instance of `merge_checkout_awareness`: with `dest` checked
out the working-directory merge path is taken; the final `dest` ref is
`src`'s tip. -/
theorem merge_checkout_awareness_witness :
    (merge_into_target_branch
       { refs := fun b => if b = "dest" then some 1 else if b = "src" then some 2 else none,
         headBranch := some "dest", anc := fun a b => decide (a ≤ b),
         mergeCmdOk := true, fetchCmdOk := true } "dest" "src").usedWorkdirMerge = true ∧
    (merge_into_target_branch
       { refs := fun b => if b = "dest" then some 1 else if b = "src" then some 2 else none,
         headBranch := some "dest", anc := fun a b => decide (a ≤ b),
         mergeCmdOk := true, fetchCmdOk := true } "dest" "src").refs "dest" = some 2 := by
  have h := merge_checkout_awareness
    { refs := fun b => if b = "dest" then some 1 else if b = "src" then some 2 else none,
      headBranch := some "dest", anc := fun a b => decide (a ≤ b),
      mergeCmdOk := true, fetchCmdOk := true } "dest" "src" (by decide)
  refine ⟨?_, h.2.2.2 rfl rfl⟩
  rw [h.1]
  decide

/-- C7: `create_branch_if_not_exists` (the spec's `ensure_branch`): an
absent branch spec (`none`) or the "use current" spec `"."` returns the
base branch unchanged with no branch created; an already existing branch
spec is returned unchanged without creating anything and without error;
otherwise a new branch named by the spec is created pointing at the base
branch's tip and the spec is returned, all other refs untouched. -/
theorem ensure_branch_cases (r : BranchRepo) (s baseBranch : String) :
    (create_branch_if_not_exists r none baseBranch = .ok (baseBranch, r)) ∧
    (create_branch_if_not_exists r (some ".") baseBranch = .ok (baseBranch, r)) ∧
    (s ≠ "." → branch_exists r s = true →
       create_branch_if_not_exists r (some s) baseBranch = .ok (s, r)) ∧
    (s ≠ "." → branch_exists r s = false →
       (r.refs baseBranch).isSome = true → r.createOk = true →
       ∃ r2, create_branch_if_not_exists r (some s) baseBranch = .ok (s, r2) ∧
         r2.refs s = r.refs baseBranch ∧
         ∀ b, b ≠ s → r2.refs b = r.refs b) := by
  refine ⟨rfl, by simp [create_branch_if_not_exists], ?_, ?_⟩
  · intro hdot hex
    simp [create_branch_if_not_exists, hdot, hex]
  · intro hdot hex hbase hcr
    refine ⟨{ r with refs := fun b => if b = s then r.refs baseBranch else r.refs b },
      ?_, ?_, ?_⟩
    · simp [create_branch_if_not_exists, hdot, hex, hbase, hcr]
    · simp
    · intro b hb
      simp [hb]

/-- Closed instance of `ensure_branch_cases`: an existing branch is
returned as is; a fresh branch is created at the base branch's tip. -/
theorem ensure_branch_witness :
    (create_branch_if_not_exists
       { refs := fun b => if b = "feature" then some 4 else if b = "main" then some 9 else none,
         createOk := true } (some "feature") "main"
     = .ok ("feature",
       { refs := fun b => if b = "feature" then some 4 else if b = "main" then some 9 else none,
         createOk := true })) ∧
    (∃ r2, create_branch_if_not_exists
       { refs := fun b => if b = "main" then some 9 else none,
         createOk := true } (some "topic") "main" = .ok ("topic", r2) ∧
       r2.refs "topic" = some 9 ∧ r2.refs "main" = some 9) := by
  have h1 := (ensure_branch_cases
    { refs := fun b => if b = "feature" then some 4 else if b = "main" then some 9 else none,
      createOk := true } "feature" "main").2.2.1 (by decide) (by decide)
  have h2 := (ensure_branch_cases
    { refs := fun b => if b = "main" then some 9 else none,
      createOk := true } "topic" "main").2.2.2 (by decide) (by decide) (by decide) rfl
  obtain ⟨r2, heq, hpt, hother⟩ := h2
  refine ⟨h1, ⟨r2, heq, ?_, ?_⟩⟩
  · rw [hpt]; decide
  · rw [hother "main" (by decide)]; decide

/-- C10: the teardown dirty check is `git diff --quiet --exit-code`,
which inspects only unstaged modifications to tracked files: every
workspace (plain or overlay) whose only changes at teardown are
untracked new files or changes already staged in the index is reported
clean, and no safety-net commit is created for those changes. -/
theorem dirty_check_sees_only_unstaged_tracked (ep : PlainEnv) (eo : OvEnv)
    (hp1 : ep.diffRaises = false) (hp2 : ep.status.unstagedTracked = false)
    (ho1 : eo.diffRaises = false) (ho2 : eo.status.unstagedTracked = false) :
    gitDiffDirty ep.status = false ∧
    (Worktree.cleanupOut ep).dirty = false ∧
    (Worktree.cleanupOut ep).syntheticMsgs = [] ∧
    gitDiffDirty eo.status = false ∧
    (WorktreeOverlayFs.cleanupOut eo).dirty = false ∧
    (WorktreeOverlayFs.cleanupOut eo).syntheticMsgs = [] := by
  obtain ⟨⟨pu, ps, pt⟩, pkeep, ptip, pl0, pdr, par, pcr, prr, pwr, prk⟩ := ep
  obtain ⟨⟨ou, os, ot⟩, okeep, otip, ol0, odr, oar, ocr, ofr, ovr, orr, omd, our, ocd⟩ := eo
  simp only at hp1 hp2 ho1 ho2
  subst hp1 hp2 ho1 ho2
  refine ⟨rfl, ?_, ?_, rfl, ?_, ?_⟩ <;>
    [skip; skip; skip; skip] <;>
    first
    | (cases prr <;> cases pkeep <;> cases pwr <;>
        simp_all [Worktree.cleanupOut, Worktree.cleanup, Worktree.cleanupBody,
          Worktree.cleanupRest, gitDiffDirty])
    | (cases ofr <;> cases ovr <;> cases orr <;> cases okeep <;> cases omd <;>
        cases our <;>
        simp_all [WorktreeOverlayFs.cleanupOut, WorktreeOverlayFs.cleanup,
          WorktreeOverlayFs.cleanupBody, WorktreeOverlayFs.publishStep,
          WorktreeOverlayFs.cleanupRest, gitDiffDirty])

/-- Closed instance of `dirty_check_sees_only_unstaged_tracked` at a
workspace with staged changes and untracked files but no unstaged
tracked modifications. -/
theorem dirty_check_witness :
    (Worktree.cleanupOut
      { status := ⟨false, true, true⟩, keep := false, tip := 1, latest0 := none,
        diffRaises := false, addRes := .ok, commitRes := .ok, repointRes := .ok,
        wtRemoveRes := .ok, rmtreeOk := true }).syntheticMsgs = [] ∧
    (WorktreeOverlayFs.cleanupOut
      { status := ⟨false, true, true⟩, keep := false, tip := 1, latest0 := none,
        diffRaises := false, addRes := .ok, commitRes := .ok, fetchRes := .ok,
        verifyRes := .ok, repointRes := .ok, mountDirExists := true,
        unmountRes := .ok, cacheDirExists := true }).syntheticMsgs = [] := by
  have h := dirty_check_sees_only_unstaged_tracked
    { status := ⟨false, true, true⟩, keep := false, tip := 1, latest0 := none,
      diffRaises := false, addRes := .ok, commitRes := .ok, repointRes := .ok,
      wtRemoveRes := .ok, rmtreeOk := true }
    { status := ⟨false, true, true⟩, keep := false, tip := 1, latest0 := none,
      diffRaises := false, addRes := .ok, commitRes := .ok, fetchRes := .ok,
      verifyRes := .ok, repointRes := .ok, mountDirExists := true,
      unmountRes := .ok, cacheDirExists := true }
    rfl rfl rfl rfl
  exact ⟨h.2.2.1, h.2.2.2.2.2⟩
